import Mathlib

/-!
Shallow embedding of the orchestration core of the proactive-assistant
platform (`src/platform.js`, class `ProactiveAssistantPlatform`), together
with theorems settling the specification claims about it.

External domain handlers (tasks, projects, calendar, email, logseq, memory,
claude, brainstorm, filesystem) are collaborators: their behaviour is an
oracle parameter (`HandlerOracle`) giving, for each operation the core may
invoke, whether the call fails (the returned promise rejects), its effect on
the shared state, and the values returned by the value-producing operations.
-/

/-- The handler operations the orchestration core invokes, named after the
source methods (`handlers.get('tasks').checkUrgentTasks()` and so on).
`updateStrategies` carries the insights argument the core passes to it;
the `handle*` operations carry the message payload. -/
inductive HandlerOp
  | checkUrgentTasks
  | checkProjectDeadlines
  | checkUpcomingEvents
  | checkImportantEmails
  | updateEntries
  | analyzePatterns
  | updateKnowledgeBase
  | generateInsights
  | updateStrategies (insights : Nat)
  | handleTaskUpdate (payload : Nat)
  | handleProjectUpdate (payload : Nat)
  | handleBrainstormSession (payload : Nat)
deriving DecidableEq, Repr

/-- Observable events emitted by the core while it runs.
`call op` records an invocation of a handler operation.
`fanout t p` records `this.notifyHandlers(type, payload)`. Modelled from the
spec: the method `notifyHandlers` is not defined in `src/platform.js` (only
its call site in `handleMessage` is); per the spec it is the
NotificationFanout step, delivering `(type, payload)` best-effort and never
raising to its caller.
`suggestions a` records `this.updateProactiveSuggestions(analysis)`.
Modelled from the spec: the method `updateProactiveSuggestions` is not
defined in `src/platform.js` (only its call site in `analyzeUserPatterns`
is); per the spec it feeds the analysis result into NotificationFanout as
updated suggestions and never raises to its caller. -/
inductive Event
  | call (op : HandlerOp)
  | fanout (type : String) (payload : Nat)
  | suggestions (analysis : Nat)
deriving DecidableEq, Repr

/-- The shared state store `this.state` of the platform
(`src/platform.js`, constructor): active project ids (a Set), pending tasks
(a Map from task id to record), upcoming events (an array), the last
analysis (null until set) and the user preferences (null until
`loadUserState` runs). -/
structure StateStore where
  activeProjects : List String
  pendingTasks : List (String × Nat)
  upcomingEvents : List Nat
  lastAnalysis : Option Nat
  userPreferences : Option (List (String × String))
deriving DecidableEq, Repr

/-- The constructor's initial state:
`{ activeProjects: new Set(), pendingTasks: new Map(), upcomingEvents: [],
lastAnalysis: null, userPreferences: null }`. -/
def initialState : StateStore :=
  { activeProjects := []
    pendingTasks := []
    upcomingEvents := []
    lastAnalysis := none
    userPreferences := none }

/-- Oracle for the external handler collaborators: which operations fail
(their promise rejects), the effect of a successful operation on the shared
state, and the results of the two value-producing operations
(`claude.analyzePatterns(state)` and `claude.generateInsights()`). -/
structure HandlerOracle where
  fails : HandlerOp → Bool
  effect : HandlerOp → StateStore → StateStore
  analysisResult : StateStore → Nat
  insightsResult : Nat

/-- An all-success oracle with identity effects, used to evaluate the core
on concrete runs. -/
def okOracle : HandlerOracle :=
  { fails := fun _ => false
    effect := fun _ s => s
    analysisResult := fun _ => 0
    insightsResult := 0 }

/-! ## Startup: handler registry and user-state load -/

/-- The fixed capability names registered by `initializeHandlers`, in the
source's registration order. -/
def capabilityNames : List String :=
  ["logseq", "filesystem", "memory", "email", "calendar", "claude",
   "tasks", "projects", "brainstorm"]

/-- Sequential registration, as in `initializeHandlers`: for each name, the
handler is constructed (`new fooHandler()`) and then stored in the
`handlers` map. A construction throw aborts the sequence there: the failing
name is not stored, later names are not reached, and the names stored
before the failure stay in the map (the map is mutated in place). Returns
the registered names in insertion order, and whether the whole sequence
completed. -/
def registerAll (ctorFails : String → Bool) : List String → List String × Bool
  | [] => ([], true)
  | nm :: rest =>
    if ctorFails nm then ([], false)
    else
      let r := registerAll ctorFails rest
      (nm :: r.1, r.2)

/-- `initializeHandlers` (`src/platform.js`): registers the nine handlers in
order; on success it goes on to `loadUserState`. `ctorFails nm` says whether
`new` for capability `nm` throws. -/
def initializeHandlers (ctorFails : String → Bool) : List String × Bool :=
  registerAll ctorFails capabilityNames

/-- The outcome of running the `ProactiveAssistantPlatform` constructor:
the registered handler names, whether initialization completed, and whether
the WebSocket layer and the monitoring timers were armed. -/
structure PlatformInit where
  handlers : List String
  initOk : Bool
  webSocketArmed : Bool
  monitoringArmed : Bool
deriving DecidableEq, Repr

/-- The constructor body: it calls `this.initializeHandlers()` without
awaiting the returned promise, then unconditionally calls
`this.setupWebSocket()` and `this.startProactiveMonitoring()`; a rejection
of the initialization promise is never caught or awaited, so the WebSocket
layer and the timers are armed regardless. -/
def constructorRun (ctorFails : String → Bool) : PlatformInit :=
  let r := initializeHandlers ctorFails
  { handlers := r.1
    initOk := r.2
    webSocketArmed := true
    monitoringArmed := true }

/-- The startup snapshot source read by `loadUserState`: the file
`state/user_state.json` may be missing (`fs.readFile` throws), hold
malformed content (`JSON.parse` throws), or hold a valid preferences
mapping. -/
inductive SnapshotSource
  | missing
  | malformed (raw : String)
  | valid (prefs : List (String × String))
deriving DecidableEq, Repr

/-- Reading and parsing the snapshot source: `none` when `fs.readFile` or
`JSON.parse` throws, `some prefs` on success. -/
def readSnapshot : SnapshotSource → Option (List (String × String))
  | SnapshotSource.missing => none
  | SnapshotSource.malformed _ => none
  | SnapshotSource.valid prefs => some prefs

/-- `loadUserState` (`src/platform.js`): the read and parse happen inside a
`try`; on any throw the `catch` logs the error and substitutes the empty
mapping `{}`. The function is total: no error escapes it, so the load never
fails the startup. Returns the updated state and whether an error was
logged. -/
def loadUserState (src : SnapshotSource) (s : StateStore) : StateStore × Bool :=
  match readSnapshot src with
  | some prefs => ({ s with userPreferences := some prefs }, false)
  | none => ({ s with userPreferences := some [] }, true)

/-! ## Message routing -/

/-- A successfully parsed inbound message: `const { type, payload } = data`. -/
structure MsgData where
  type : String
  payload : Nat
deriving DecidableEq, Repr

/-- The `switch (type)` in `handleMessage`: the handler operation a message
type dispatches to, or `none` for an unrecognized type (the switch has no
default case). -/
def dispatchedOp (d : MsgData) : Option HandlerOp :=
  if d.type = "TASK_UPDATE" then some (HandlerOp.handleTaskUpdate d.payload)
  else if d.type = "PROJECT_UPDATE" then some (HandlerOp.handleProjectUpdate d.payload)
  else if d.type = "BRAINSTORM_REQUEST" then some (HandlerOp.handleBrainstormSession d.payload)
  else none

/-- `handleMessage` (`src/platform.js`): dispatch by `type`; if the mapped
handler call rejects, the exception propagates out of `handleMessage`
before the fan-out line is reached. After the switch,
`this.notifyHandlers(type, payload)` runs for every message, mapped or not.
Returns the emitted events, the resulting state, and whether `handleMessage`
completed without throwing. -/
def handleMessage (o : HandlerOracle) (s : StateStore) (d : MsgData) :
    List Event × StateStore × Bool :=
  match dispatchedOp d with
  | some op =>
    if o.fails op then ([Event.call op], s, false)
    else ([Event.call op, Event.fanout d.type d.payload], o.effect op s, true)
  | none => ([Event.fanout d.type d.payload], s, true)

/-- The outcome of the per-message WebSocket callback: the events emitted,
whether the `catch` logged an error, and whether the connection was closed. -/
structure MsgOutcome where
  events : List Event
  reportedError : Bool
  connectionClosed : Bool
deriving DecidableEq, Repr

/-- The per-message callback installed by `setupWebSocket`
(`src/platform.js`): `JSON.parse(message)` and `handleMessage` run inside a
`try`; any throw (parse failure or handler rejection) is caught and logged
with `console.error`. Nothing in the callback ever closes the connection.
The raw inbound text is represented by its parse result: `none` when
`JSON.parse` throws. -/
def processRawMessage (o : HandlerOracle) (s : StateStore) (parsed : Option MsgData) :
    MsgOutcome × StateStore :=
  match parsed with
  | none => ({ events := [], reportedError := true, connectionClosed := false }, s)
  | some d =>
    let r := handleMessage o s d
    ({ events := r.1, reportedError := !r.2.2, connectionClosed := false }, r.2.1)

/-- A global arrival order of inbound messages, each tagged with the id of
the connection it arrived on. Each message is handled by its own
invocation of the per-message callback; the shared state threads through. -/
def processStream (o : HandlerOracle) :
    StateStore → List (Nat × Option MsgData) → List (Nat × MsgOutcome) × StateStore
  | s, [] => ([], s)
  | s, (c, m) :: rest =>
    let r := processRawMessage o s m
    let rs := processStream o r.2 rest
    ((c, r.1) :: rs.1, rs.2)

/-! ## Periodic scheduler -/

/-- Sequential execution of a firing's ordered handler calls, as written in
the source: one `await` per call, no `try`/`catch` anywhere in the method,
so the first rejection makes the whole firing's promise reject and the
calls after it are never made. Returns the calls actually invoked (the
failing call included: it was invoked and threw) and whether the firing
completed. -/
def execCalls (fails : HandlerOp → Bool) : List HandlerOp → List Event × Bool
  | [] => ([], true)
  | op :: rest =>
    if fails op then ([Event.call op], false)
    else
      let r := execCalls fails rest
      (Event.call op :: r.1, r.2)

/-- The ordered call sequence of `runPeriodicChecks` (`src/platform.js`):
tasks.checkUrgentTasks, projects.checkProjectDeadlines,
calendar.checkUpcomingEvents, email.checkImportantEmails,
logseq.updateEntries. -/
def shortCadenceCalls : List HandlerOp :=
  [HandlerOp.checkUrgentTasks, HandlerOp.checkProjectDeadlines,
   HandlerOp.checkUpcomingEvents, HandlerOp.checkImportantEmails,
   HandlerOp.updateEntries]

/-- `runPeriodicChecks` (`src/platform.js`): the short-cadence firing body. -/
def runPeriodicChecks (o : HandlerOracle) : List Event × Bool :=
  execCalls o.fails shortCadenceCalls

/-- `analyzeUserPatterns` (`src/platform.js`): the medium-cadence firing
body. It awaits `claude.analyzePatterns(this.state)`; a rejection there
propagates and nothing further runs. On success it passes the analysis
result to `updateProactiveSuggestions` (see `Event.suggestions`). -/
def analyzeUserPatterns (o : HandlerOracle) (s : StateStore) : List Event × Bool :=
  if o.fails HandlerOp.analyzePatterns then ([Event.call HandlerOp.analyzePatterns], false)
  else
    ([Event.call HandlerOp.analyzePatterns, Event.suggestions (o.analysisResult s)], true)

/-- `updateKnowledgeBase` (`src/platform.js`): the long-cadence firing body.
It awaits `memory.updateKnowledgeBase()`, then
`insights = await claude.generateInsights()`, then
`projects.updateStrategies(insights)`; as in `runPeriodicChecks` there is no
`try`/`catch`, so the first rejection stops the firing there. -/
def updateKnowledgeBase (o : HandlerOracle) : List Event × Bool :=
  if o.fails HandlerOp.updateKnowledgeBase then
    ([Event.call HandlerOp.updateKnowledgeBase], false)
  else if o.fails HandlerOp.generateInsights then
    ([Event.call HandlerOp.updateKnowledgeBase, Event.call HandlerOp.generateInsights], false)
  else
    let insights := o.insightsResult
    if o.fails (HandlerOp.updateStrategies insights) then
      ([Event.call HandlerOp.updateKnowledgeBase, Event.call HandlerOp.generateInsights,
        Event.call (HandlerOp.updateStrategies insights)], false)
    else
      ([Event.call HandlerOp.updateKnowledgeBase, Event.call HandlerOp.generateInsights,
        Event.call (HandlerOp.updateStrategies insights)], true)

/-- The three timer intervals armed by `startProactiveMonitoring`
(`src/platform.js`), in milliseconds: every 5 minutes, every hour, every
day. -/
def shortCadenceMs : Nat := 300000

/-- The medium (hourly) cadence of `startProactiveMonitoring`. -/
def mediumCadenceMs : Nat := 3600000

/-- The long (daily) cadence of `startProactiveMonitoring`. -/
def longCadenceMs : Nat := 86400000

/-- The time (ms after startup) at which the k-th short-cadence firing is
due: `setInterval` invokes its callback at every multiple of the interval. -/
def dueTime (k : Nat) : Nat := k * shortCadenceMs

/-- Whether the k-th due short-cadence firing starts. In the source the
`setInterval` callback `() => this.runPeriodicChecks()` is invoked at every
due time and starts the async body unconditionally: the returned promise is
never awaited and there is no Idle/Running guard, so the start does not
depend on the durations (`dur`, in ms) of earlier firings. Firing indices
begin at 1 (the first firing is due one interval after startup). -/
def firingStarts (_dur : Nat → Nat) (k : Nat) : Bool :=
  decide (1 ≤ k)

/-- Whether the k-th short-cadence firing is still running at time t, given
each firing's duration `dur` in ms: it started, and t lies within its
execution window. -/
def firingRunningAt (dur : Nat → Nat) (k t : Nat) : Bool :=
  firingStarts dur k && decide (dueTime k ≤ t) && decide (t < dueTime k + dur k)

/-- The outcomes of the first n short-cadence firings: `setInterval`
re-invokes the callback each period, and a rejected firing neither cancels
the interval nor changes later firings, so the k-th outcome is
`runPeriodicChecks` under the k-th firing's oracle alone. -/
def shortFirings (o : Nat → HandlerOracle) (n : Nat) : List (List Event × Bool) :=
  (List.range n).map fun k => runPeriodicChecks (o k)

/-- The outcomes of the first n medium-cadence firings, with `ss k` the
shared state at the k-th firing. -/
def mediumFirings (o : Nat → HandlerOracle) (ss : Nat → StateStore) (n : Nat) :
    List (List Event × Bool) :=
  (List.range n).map fun k => analyzeUserPatterns (o k) (ss k)

/-- The outcomes of the first n long-cadence firings. -/
def longFirings (o : Nat → HandlerOracle) (n : Nat) : List (List Event × Bool) :=
  (List.range n).map fun k => updateKnowledgeBase (o k)

/-! ## Concrete instances used to evaluate the model -/

/-- An oracle under which the urgent-task check rejects and every other
operation succeeds with identity effect. -/
def failUrgent : HandlerOracle :=
  { fails := fun c => decide (c = HandlerOp.checkUrgentTasks)
    effect := fun _ s => s
    analysisResult := fun _ => 0
    insightsResult := 0 }

/-- The per-firing oracle family that behaves like `failUrgent` at every
firing. -/
def failUrgentSeq : Nat → HandlerOracle := fun _ => failUrgent

/-- A constant shared-state history. -/
def constState : Nat → StateStore := fun _ => initialState

/-- An oracle under which the task-update handler call rejects. -/
def failTaskUpdate : HandlerOracle :=
  { fails := fun c => decide (c = HandlerOp.handleTaskUpdate 7)
    effect := fun _ s => s
    analysisResult := fun _ => 0
    insightsResult := 0 }

/-- A concrete recognized inbound message. -/
def taskMsg : MsgData := { type := "TASK_UPDATE", payload := 7 }

/-- A concrete unrecognized inbound message. -/
def pingMsg : MsgData := { type := "PING", payload := 3 }

/-- A concrete arrival order: a malformed message on connection 1 followed
by a well-formed one on connection 2. -/
def demoStream : List (Nat × Option MsgData) := [(1, none), (2, some taskMsg)]

/-- Firing durations where every firing takes two intervals. -/
def constDur : Nat → Nat := fun _ => 600000

/-- Handler construction where `new emailHandler()` throws and every other
construction succeeds. -/
def emailCtorFails : String → Bool := fun nm => nm == "email"

/-- Handler construction with no failures. -/
def noCtorFailure : String → Bool := fun _ => false

/-! ## Helper lemmas -/

/-- Characterization of sequential registration: the registered names are
the longest initial run of names whose construction succeeds, and the
sequence completes exactly when every construction succeeds. -/
theorem registerAll_eq (ctorFails : String → Bool) (names : List String) :
    registerAll ctorFails names
      = (names.takeWhile (fun nm => !ctorFails nm), names.all (fun nm => !ctorFails nm)) := by
  induction names with
  | nil => simp [registerAll]
  | cons nm rest ih =>
    by_cases h : ctorFails nm = true
    · simp [registerAll, h]
    · simp only [Bool.not_eq_true] at h
      simp [registerAll, h, ih]

/-- Characterization of a firing's sequential call execution: the invoked
calls are the successful initial run plus the first failing call (if any),
and the firing completes exactly when every call succeeds. -/
theorem execCalls_eq (fails : HandlerOp → Bool) (ops : List HandlerOp) :
    execCalls fails ops
      = (((ops.takeWhile fun c => !fails c)
          ++ ((ops.dropWhile fun c => !fails c).take 1)).map Event.call,
         ops.all fun c => !fails c) := by
  induction ops with
  | nil => simp [execCalls]
  | cons op rest ih =>
    by_cases h : fails op = true
    · simp [execCalls, h]
    · simp only [Bool.not_eq_true] at h
      simp [execCalls, h, ih]

/-- The per-message callback never closes the connection, whatever the
parse result and the handler behaviour. -/
theorem processRawMessage_keeps_connection (o : HandlerOracle) (s : StateStore)
    (m : Option MsgData) :
    (processRawMessage o s m).1.connectionClosed = false := by
  cases m <;> rfl

/-- Every message in the arrival order is handled: none is dropped or
aborted by a failure in an earlier message's handling. -/
theorem processStream_handles_all (o : HandlerOracle) :
    ∀ (stream : List (Nat × Option MsgData)) (s : StateStore),
      (processStream o s stream).1.map Prod.fst = stream.map Prod.fst := by
  intro stream
  induction stream with
  | nil => intro s; rfl
  | cons hd tl ih =>
    intro s
    obtain ⟨c, m⟩ := hd
    simp [processStream, ih]

/-- No message in the arrival order, on any connection, causes a connection
to be closed. -/
theorem processStream_keeps_connections (o : HandlerOracle) :
    ∀ (stream : List (Nat × Option MsgData)) (s : StateStore),
      ∀ p ∈ (processStream o s stream).1, p.2.connectionClosed = false := by
  intro stream
  induction stream with
  | nil => intro s p hp; simp [processStream] at hp
  | cons hd tl ih =>
    intro s p hp
    obtain ⟨c, m⟩ := hd
    simp only [processStream, List.mem_cons] at hp
    rcases hp with h1 | h2
    · rw [h1]
      exact processRawMessage_keeps_connection o s m
    · exact ih _ p h2

/-! ## Claim theorems -/

/-- C1 counterexample: in a short-cadence firing whose first call (the
urgent-task check) fails, the subsequent calls of the firing's sequence are
NOT executed — the deadline check never runs — contradicting the claim that
every subsequent call in the firing still executes after a failure. -/
theorem runPeriodicChecks_failure_stops_firing :
    (runPeriodicChecks failUrgent).1 = [Event.call HandlerOp.checkUrgentTasks]
    ∧ Event.call HandlerOp.checkProjectDeadlines ∉ (runPeriodicChecks failUrgent).1
    ∧ (runPeriodicChecks failUrgent).2 = false := by
  decide

/-- C1 (amended): if an individual handler call in a short-cadence firing
fails, the exception propagates out of the firing uncaught — the calls after
the first failing call are skipped (the invoked calls are exactly the
successful initial run plus the first failing call) — but the firing due at
every tick of this job and of the other two jobs still occurs, each
determined by its own tick's oracle alone. -/
theorem runPeriodicChecks_failure_semantics (o : Nat → HandlerOracle) (ss : Nat → StateStore)
    (n j : Nat) (hj : j < n) :
    (runPeriodicChecks (o j)).1
      = ((shortCadenceCalls.takeWhile fun c => !(o j).fails c)
          ++ ((shortCadenceCalls.dropWhile fun c => !(o j).fails c).take 1)).map Event.call
    ∧ (shortFirings o n)[j]? = some (runPeriodicChecks (o j))
    ∧ (mediumFirings o ss n)[j]? = some (analyzeUserPatterns (o j) (ss j))
    ∧ (longFirings o n)[j]? = some (updateKnowledgeBase (o j)) := by
  refine ⟨?_, ?_, ?_, ?_⟩
  · rw [runPeriodicChecks, execCalls_eq]
  · simp [shortFirings, hj]
  · simp [mediumFirings, hj]
  · simp [longFirings, hj]

/-- C1 witness: the amended failure semantics evaluated at a concrete run
where the urgent-task check fails at every firing. -/
theorem runPeriodicChecks_failure_semantics_witness :
    (runPeriodicChecks failUrgent).1
      = ((shortCadenceCalls.takeWhile fun c => !failUrgent.fails c)
          ++ ((shortCadenceCalls.dropWhile fun c => !failUrgent.fails c).take 1)).map Event.call
    ∧ (shortFirings failUrgentSeq 2)[1]? = some (runPeriodicChecks failUrgent)
    ∧ (mediumFirings failUrgentSeq constState 2)[1]?
        = some (analyzeUserPatterns failUrgent initialState)
    ∧ (longFirings failUrgentSeq 2)[1]? = some (updateKnowledgeBase failUrgent) :=
  runPeriodicChecks_failure_semantics failUrgentSeq constState 2 1 (by decide)

/-- C2 counterexample: a successfully parsed TASK_UPDATE message whose
dispatched handler call fails is NOT fanned out — `notifyHandlers` sits
after the `await` of the dispatched call, so the rejection skips it —
contradicting the claim that every successfully parsed message is fanned
out. -/
theorem handleMessage_failed_dispatch_skips_fanout :
    (handleMessage failTaskUpdate initialState taskMsg).1
      = [Event.call (HandlerOp.handleTaskUpdate 7)]
    ∧ Event.fanout "TASK_UPDATE" 7 ∉ (handleMessage failTaskUpdate initialState taskMsg).1 := by
  decide

/-- C2 (amended): for every successfully parsed message whose dispatched
handler call (when one exists) succeeds, the router invokes the fan-out
with exactly (type, payload) — in particular every message of
unrecognized type, which maps to no handler operation, is always fanned
out — and handling a parsed message never closes the connection. -/
theorem handleMessage_fanout_on_success (o : HandlerOracle) (s : StateStore) (d : MsgData)
    (h : ∀ op, dispatchedOp d = some op → o.fails op = false) :
    Event.fanout d.type d.payload ∈ (handleMessage o s d).1
    ∧ (handleMessage o s d).2.2 = true
    ∧ (processRawMessage o s (some d)).1.connectionClosed = false := by
  cases hop : dispatchedOp d with
  | none => simp [handleMessage, processRawMessage, hop]
  | some op =>
    have hf := h op hop
    simp [handleMessage, processRawMessage, hop, hf]

/-- C2 witness: the amended fan-out behaviour evaluated on a concrete
unrecognized message under the all-success oracle. -/
theorem handleMessage_fanout_on_success_witness :
    Event.fanout "PING" 3 ∈ (handleMessage okOracle initialState pingMsg).1
    ∧ (handleMessage okOracle initialState pingMsg).2.2 = true
    ∧ (processRawMessage okOracle initialState (some pingMsg)).1.connectionClosed = false :=
  handleMessage_fanout_on_success okOracle initialState pingMsg (fun _ _ => rfl)

/-- C3: a missing snapshot source (read failure) and a malformed one (parse
failure) both make the initial load set `userPreferences` to the empty
mapping and return normally — the error is only logged, never re-thrown, so
startup continues. -/
theorem loadUserState_defaults_on_failure (s : StateStore) (raw : String) :
    loadUserState SnapshotSource.missing s = ({ s with userPreferences := some [] }, true)
    ∧ loadUserState (SnapshotSource.malformed raw) s
        = ({ s with userPreferences := some [] }, true) :=
  ⟨rfl, rfl⟩

/-- C3 witness: the defaulting load evaluated at the constructor's initial
state on a concrete missing and a concrete malformed source. -/
theorem loadUserState_defaults_on_failure_witness :
    loadUserState SnapshotSource.missing initialState
      = ({ initialState with userPreferences := some [] }, true)
    ∧ loadUserState (SnapshotSource.malformed "oops") initialState
      = ({ initialState with userPreferences := some [] }, true) :=
  loadUserState_defaults_on_failure initialState "oops"

/-- C4 counterexample: with every firing lasting two intervals, firing 1 of
the short-cadence job is still running at the moment firing 2 is due, yet
firing 2 starts anyway and both firings run concurrently at that moment —
contradicting the claim that the next firing is skipped and that two
firings of the same job never run concurrently. -/
theorem setInterval_overlapping_firings :
    firingRunningAt constDur 1 (dueTime 2) = true
    ∧ firingStarts constDur 2 = true
    ∧ firingRunningAt constDur 2 (dueTime 2) = true := by
  decide

/-- C4 (amended): the scheduler has no Idle/Running guard: every due firing
of the short-cadence job starts, whatever the durations of earlier firings;
and whenever a firing overruns its interval, it and the next firing run
concurrently at the next due time. Overlapping firings are neither skipped
nor queued. -/
theorem firingStarts_unconditionally (dur : Nat → Nat) (k : Nat) (h : 1 ≤ k) :
    firingStarts dur (k + 1) = true
    ∧ (shortCadenceMs < dur k → 0 < dur (k + 1) →
        firingRunningAt dur k (dueTime (k + 1)) = true
        ∧ firingRunningAt dur (k + 1) (dueTime (k + 1)) = true) := by
  refine ⟨by simp [firingStarts], ?_⟩
  intro h1 h2
  simp only [shortCadenceMs] at h1
  constructor
  · simp only [firingRunningAt, firingStarts, dueTime, shortCadenceMs, Bool.and_eq_true,
      decide_eq_true_eq]
    omega
  · simp only [firingRunningAt, firingStarts, dueTime, shortCadenceMs, Bool.and_eq_true,
      decide_eq_true_eq]
    omega

/-- C4 witness: the unguarded-start behaviour evaluated at concrete
two-interval durations. -/
theorem firingStarts_unconditionally_witness :
    firingStarts constDur 2 = true
    ∧ firingRunningAt constDur 1 (dueTime 2) = true
    ∧ firingRunningAt constDur 2 (dueTime 2) = true :=
  ⟨(firingStarts_unconditionally constDur 1 (by decide)).1,
   ((firingStarts_unconditionally constDur 1 (by decide)).2 (by decide) (by decide)).1,
   ((firingStarts_unconditionally constDur 1 (by decide)).2 (by decide) (by decide)).2⟩

/-- C5: in any short-cadence firing in which no handler call fails,
`runPeriodicChecks` executes exactly, and in this order: the urgent-task
check, the project-deadline check, the upcoming-event check, the
important-email check, and the knowledge-base (logseq) entry refresh. -/
theorem runPeriodicChecks_sequence (o : HandlerOracle) (h : ∀ c, o.fails c = false) :
    runPeriodicChecks o
      = ([Event.call HandlerOp.checkUrgentTasks, Event.call HandlerOp.checkProjectDeadlines,
          Event.call HandlerOp.checkUpcomingEvents, Event.call HandlerOp.checkImportantEmails,
          Event.call HandlerOp.updateEntries], true) := by
  simp [runPeriodicChecks, shortCadenceCalls, execCalls, h]

/-- C5 witness: the short-cadence sequence evaluated under the all-success
oracle. -/
theorem runPeriodicChecks_sequence_witness :
    runPeriodicChecks okOracle
      = ([Event.call HandlerOp.checkUrgentTasks, Event.call HandlerOp.checkProjectDeadlines,
          Event.call HandlerOp.checkUpcomingEvents, Event.call HandlerOp.checkImportantEmails,
          Event.call HandlerOp.updateEntries], true) :=
  runPeriodicChecks_sequence okOracle (fun _ => rfl)

/-- C6: a medium-cadence firing whose pattern analysis succeeds runs the
analysis over the current shared state and feeds exactly that analysis
result into the fan-out as updated suggestions. -/
theorem analyzeUserPatterns_feeds_analysis (o : HandlerOracle) (s : StateStore)
    (h : o.fails HandlerOp.analyzePatterns = false) :
    analyzeUserPatterns o s
      = ([Event.call HandlerOp.analyzePatterns, Event.suggestions (o.analysisResult s)],
         true) := by
  simp [analyzeUserPatterns, h]

/-- C6 witness: the medium-cadence firing evaluated under the all-success
oracle at the initial state. -/
theorem analyzeUserPatterns_feeds_analysis_witness :
    analyzeUserPatterns okOracle initialState
      = ([Event.call HandlerOp.analyzePatterns, Event.suggestions 0], true) :=
  analyzeUserPatterns_feeds_analysis okOracle initialState rfl

/-- C7: a long-cadence firing in which no call fails executes, in order:
the knowledge-graph (memory) refresh, the insight generation, and the
project-strategy update — and the insights pushed into the strategy update
are exactly the ones just generated. -/
theorem updateKnowledgeBase_sequence (o : HandlerOracle) (h : ∀ c, o.fails c = false) :
    updateKnowledgeBase o
      = ([Event.call HandlerOp.updateKnowledgeBase, Event.call HandlerOp.generateInsights,
          Event.call (HandlerOp.updateStrategies o.insightsResult)], true) := by
  simp [updateKnowledgeBase, h]

/-- C7 witness: the long-cadence sequence evaluated under the all-success
oracle. -/
theorem updateKnowledgeBase_sequence_witness :
    updateKnowledgeBase okOracle
      = ([Event.call HandlerOp.updateKnowledgeBase, Event.call HandlerOp.generateInsights,
          Event.call (HandlerOp.updateStrategies 0)], true) :=
  updateKnowledgeBase_sequence okOracle (fun _ => rfl)

/-- C8: every inbound message on every connection is handled — a parse
failure or a failed dispatched handler call is reported (`console.error` in
the per-message catch) and never closes any connection, and the arrival
order of messages across connections is processed in full, so a failure on
one connection does not abort the handling of in-flight messages on
others. -/
theorem setupWebSocket_failure_isolation (o : HandlerOracle) (s : StateStore)
    (stream : List (Nat × Option MsgData)) :
    ((processStream o s stream).1.map Prod.fst = stream.map Prod.fst)
    ∧ (∀ p ∈ (processStream o s stream).1, p.2.connectionClosed = false)
    ∧ ((processRawMessage o s none).1.reportedError = true)
    ∧ (∀ d : MsgData, (handleMessage o s d).2.2 = false →
        (processRawMessage o s (some d)).1.reportedError = true) := by
  refine ⟨processStream_handles_all o stream s, processStream_keeps_connections o stream s,
    rfl, ?_⟩
  intro d hd2
  simp [processRawMessage, hd2]

/-- C8 witness: failure isolation evaluated on a concrete two-connection
arrival order containing a malformed message, and on a concrete failing
dispatched handler call. -/
theorem setupWebSocket_failure_isolation_witness :
    ((processStream okOracle initialState demoStream).1.map Prod.fst = demoStream.map Prod.fst)
    ∧ (processRawMessage okOracle initialState none).1.reportedError = true
    ∧ (processRawMessage failTaskUpdate initialState (some taskMsg)).1.reportedError = true :=
  ⟨(setupWebSocket_failure_isolation okOracle initialState demoStream).1,
   (setupWebSocket_failure_isolation okOracle initialState demoStream).2.2.1,
   (setupWebSocket_failure_isolation failTaskUpdate initialState demoStream).2.2.2 taskMsg
     (by decide)⟩

/-- C9 counterexample: when the construction of the email handler throws,
the three handlers constructed before it stay registered — the registry is
non-empty and holds only part of the fixed capability set — and the
WebSocket layer and the timers are still armed, contradicting the claim
that startup fails fatally with no such registry ever left in place. -/
theorem initializeHandlers_keeps_earlier_handlers :
    (constructorRun emailCtorFails).handlers = ["logseq", "filesystem", "memory"]
    ∧ (constructorRun emailCtorFails).handlers ≠ []
    ∧ (constructorRun emailCtorFails).handlers ≠ capabilityNames
    ∧ (constructorRun emailCtorFails).initOk = false
    ∧ (constructorRun emailCtorFails).webSocketArmed = true
    ∧ (constructorRun emailCtorFails).monitoringArmed = true := by
  decide

/-- C9 (amended): registry construction is incremental, not all-or-nothing:
the registered handlers are exactly the longest initial run of the fixed
capability list whose constructions succeed, initialization completes only
when every construction succeeds, and — the initialization promise being
neither awaited nor guarded — the WebSocket layer and the monitoring timers
are armed whether or not a construction failed. -/
theorem initializeHandlers_registers_up_to_first_failure (ctorFails : String → Bool) :
    (constructorRun ctorFails).handlers = capabilityNames.takeWhile (fun nm => !ctorFails nm)
    ∧ (constructorRun ctorFails).initOk = capabilityNames.all (fun nm => !ctorFails nm)
    ∧ (constructorRun ctorFails).webSocketArmed = true
    ∧ (constructorRun ctorFails).monitoringArmed = true := by
  have h := registerAll_eq ctorFails capabilityNames
  exact ⟨by simp [constructorRun, initializeHandlers, h],
    by simp [constructorRun, initializeHandlers, h], rfl, rfl⟩

/-- C9 witness: the incremental registration evaluated on a failure-free
construction, where all nine capability names end up registered. -/
theorem initializeHandlers_registers_up_to_first_failure_witness :
    (constructorRun noCtorFailure).handlers = capabilityNames
    ∧ (constructorRun noCtorFailure).initOk = true :=
  ⟨(initializeHandlers_registers_up_to_first_failure noCtorFailure).1,
   (initializeHandlers_registers_up_to_first_failure noCtorFailure).2.1⟩

/-- C10: a message whose parse fails is dropped entirely after the catch
logs it: no handler operation is invoked and no fan-out notification is
produced (the event list is empty), and every field of the shared state —
activeProjects, pendingTasks, upcomingEvents, lastAnalysis,
userPreferences — is left unchanged. -/
theorem parse_failure_leaves_state_unchanged (o : HandlerOracle) (s : StateStore) :
    (processRawMessage o s none).2.activeProjects = s.activeProjects
    ∧ (processRawMessage o s none).2.pendingTasks = s.pendingTasks
    ∧ (processRawMessage o s none).2.upcomingEvents = s.upcomingEvents
    ∧ (processRawMessage o s none).2.lastAnalysis = s.lastAnalysis
    ∧ (processRawMessage o s none).2.userPreferences = s.userPreferences
    ∧ (processRawMessage o s none).1.events = []
    ∧ (processRawMessage o s none).1.reportedError = true :=
  ⟨rfl, rfl, rfl, rfl, rfl, rfl, rfl⟩

/-- C10 witness: the parse-failure frame condition evaluated at the initial
state under the all-success oracle. -/
theorem parse_failure_leaves_state_unchanged_witness :
    (processRawMessage okOracle initialState none).1.events = []
    ∧ (processRawMessage okOracle initialState none).1.reportedError = true
    ∧ (processRawMessage okOracle initialState none).2.userPreferences
        = initialState.userPreferences :=
  ⟨(parse_failure_leaves_state_unchanged okOracle initialState).2.2.2.2.2.1,
   (parse_failure_leaves_state_unchanged okOracle initialState).2.2.2.2.2.2,
   (parse_failure_leaves_state_unchanged okOracle initialState).2.2.2.2.1⟩
